import Mathlib

/-!
Shallow embedding of the generic binary operator of `src/dataflow/operators/binary.rs`
and of the Scenario A example of `examples/distinct.rs`, over spec-modelled
progress-tracking primitives (CountMap, Notificator, Pull/Push counters, Tee,
Scope) whose sources are not part of this repository snapshot.
-/

set_option autoImplicit false

namespace Timely

/-- Modelled from the spec: `CountMap` (progress/count_map.rs is absent from src/).
A sparse map from timestamp to nonzero signed delta, held as an association list. -/
def CountMap (T : Type) : Type := List (T × Int)

namespace CountMap

variable {T : Type}

/-- Modelled from the spec: a fresh, empty CountMap (`CountMap::new`). -/
def new : CountMap T := []

/-- Modelled from the spec: `update(T, delta)` merges a delta with any existing
entry for the timestamp and removes the entry if the result is zero. -/
def update [DecidableEq T] (t : T) (d : Int) : CountMap T → CountMap T
  | [] => if d = 0 then [] else [(t, d)]
  | (t0, d0) :: rest =>
      if t = t0 then
        (if d0 + d = 0 then rest else (t0, d0 + d) :: rest)
      else
        (t0, d0) :: update t d rest

/-- Semantic observation of a CountMap: the total delta recorded for a timestamp
(the sum of all entries with that key). -/
def count [DecidableEq T] (m : CountMap T) (t : T) : Int :=
  (m.map (fun p => if p.1 = t then p.2 else 0)).sum

/-- Modelled from the spec: draining one CountMap into a caller-supplied
accumulator with merge semantics (the source map is then cleared by the caller). -/
def drainInto [DecidableEq T] (src acc : CountMap T) : CountMap T :=
  src.foldl (fun a p => update p.1 p.2 a) acc

end CountMap

/-- Modelled from the spec: `Antichain` with `from_elem(T)`, the singleton
constructor for initial frontiers (progress/frontier code is absent from src/). -/
def Antichain (S : Type) : Type := List S

/-- Modelled from the spec: `Antichain::from_elem`, a singleton antichain. -/
def Antichain.from_elem {S : Type} (s : S) : Antichain S := [s]

/-- Modelled from the spec: `Notificator` (progress/notificator.rs is absent
from src/). It owns the pending request counts, the stored input frontier kept
as per-timestamp counts backing the antichain, and the CountMap of internal
progress deltas (+1 per `notify_at`, drained by `pull_progress`). -/
structure Notificator (T : Type) : Type where
  pending : CountMap T
  frontier : CountMap T
  changes : CountMap T

instance {T : Type} : Inhabited (Notificator T) :=
  ⟨⟨CountMap.new, CountMap.new, CountMap.new⟩⟩

namespace Notificator

variable {T : Type}

/-- Modelled from the spec: `notify_at(T)` increments the pending count for T and
records a +1 internal delta, to be reported by `pull_progress` (spec section 4.3
together with the initial CountMap of section 4.4). -/
def notify_at [DecidableEq T] (n : Notificator T) (t : T) : Notificator T :=
  { n with
    pending := n.pending.update t 1
    changes := n.changes.update t 1 }

/-- Modelled from the spec: `pull_progress(&mut out)` drains the accumulated
internal deltas into the caller-supplied accumulator with merge semantics and
clears them. -/
def pull_progress [DecidableEq T] (n : Notificator T) (out : CountMap T) :
    Notificator T × CountMap T :=
  ({ n with changes := CountMap.new }, CountMap.drainInto n.changes out)

/-- Modelled from the spec: `update_frontier_from_cm(deltas)` applies every
(timestamp, delta) pair of the supplied CountMaps to the stored per-timestamp
counts that back the input frontier, draining the supplied maps. -/
def update_frontier_from_cm [DecidableEq T] (n : Notificator T)
    (cms : List (CountMap T)) : Notificator T :=
  { n with
    frontier := cms.foldl (fun f cm => cm.foldl (fun f2 p => f2.update p.1 p.2) f) n.frontier }

end Notificator

/-- Modelled from the spec: `Tee`, the fan-out output endpoint, represented by
its registry of subscriber ids (dataflow/channels/pushers/tee.rs is absent
from src/). -/
structure Tee (T : Type) : Type where
  subscribers : List Nat

/-- Modelled from the spec: the registration handle returned by `Tee::new`,
used by downstream code to attach new subscribers. -/
structure TeeHelper (T : Type) : Type where
  unit : Unit

/-- Modelled from the spec: `Tee::new()` returns a fresh fan-out endpoint with
no subscribers together with its registration handle. -/
def Tee.new {T : Type} : Tee T × TeeHelper T := (⟨[]⟩, ⟨()⟩)

/-- Modelled from the spec: `PullCounter` wraps a channel receiver and meters
consumed messages into an internal CountMap
(dataflow/channels/pullers/counter.rs is absent from src/). -/
structure PullCounter (T : Type) : Type where
  receiver : Nat
  consumed : CountMap T

namespace PullCounter

variable {T : Type}

/-- Modelled from the spec: `PullCounter::new(receiver)` wraps a channel
receiver with an empty internal CountMap. -/
def new (receiver : Nat) : PullCounter T := ⟨receiver, CountMap.new⟩

/-- Modelled from the spec: `pull_progress(&mut out)` drains the internal
CountMap into the caller-supplied accumulator (merge semantics) and clears it. -/
def pull_progress [DecidableEq T] (c : PullCounter T) (out : CountMap T) :
    PullCounter T × CountMap T :=
  ({ c with consumed := CountMap.new }, CountMap.drainInto c.consumed out)

end PullCounter

/-- Modelled from the spec: `PushCounter` wraps the sending endpoint (a Tee) and
meters produced messages into an internal CountMap
(dataflow/channels/pushers/counter.rs is absent from src/). -/
structure PushCounter (T : Type) : Type where
  targets : Tee T
  produced : CountMap T

namespace PushCounter

variable {T : Type}

/-- Modelled from the spec: `PushCounter::new(targets, ...)` wraps the fan-out
endpoint with an empty internal CountMap. -/
def new (targets : Tee T) : PushCounter T := ⟨targets, CountMap.new⟩

/-- Modelled from the spec: `pull_progress(&mut out)` drains the internal
CountMap into the caller-supplied accumulator (merge semantics) and clears it. -/
def pull_progress [DecidableEq T] (c : PushCounter T) (out : CountMap T) :
    PushCounter T × CountMap T :=
  ({ c with produced := CountMap.new }, CountMap.drainInto c.produced out)

end PushCounter

/-- Modelled from the spec: the buffering layer (`Buffer as ObserverBuffer`)
wrapped around the output PushCounter: batches queued as (timestamp, batch
length) pairs, flushed into the counter on `cease`
(dataflow/channels/pushers/buffer.rs is absent from src/). -/
structure ObserverBuffer (T : Type) : Type where
  buffer : List (T × Nat)
  inner0 : PushCounter T

namespace ObserverBuffer

variable {T : Type}

/-- Modelled from the spec: a fresh empty buffer around a push counter. -/
def new (pc : PushCounter T) : ObserverBuffer T := ⟨[], pc⟩

/-- Modelled from the spec: `inner()` exposes the wrapped PushCounter. -/
def inner (b : ObserverBuffer T) : PushCounter T := b.inner0

/-- Modelled from the spec: `cease()` flushes every buffered batch downstream,
recording +len(batch) at the batch timestamp into the push counter. -/
def cease [DecidableEq T] (b : ObserverBuffer T) : ObserverBuffer T :=
  { buffer := []
    inner0 :=
      { b.inner0 with
        produced := b.buffer.foldl (fun m p => m.update p.1 (p.2 : Int)) b.inner0.produced } }

end ObserverBuffer

/-- The `Handle` struct of src/dataflow/operators/binary.rs: two metered inputs,
one metered and buffered output, and a notificator. -/
structure Handle (T : Type) : Type where
  input1 : PullCounter T
  input2 : PullCounter T
  output : ObserverBuffer T
  notificator : Notificator T

/-- The user logic closure of the generic binary operator: it receives mutable
access to the four fields of the `Handle` and transforms them; embedded as a
function on handles. -/
def Logic (T : Type) : Type := Handle T → Handle T

/-- The three-argument logic closure accepted by `binary_stream`: it receives
the two inputs and the output but no notificator. -/
def Logic3 (T : Type) : Type :=
  PullCounter T → PullCounter T → ObserverBuffer T →
    PullCounter T × PullCounter T × ObserverBuffer T

/-- The wrapper `binary_stream` builds around a three-argument logic closure:
`move |i1, i2, o, _| logic(i1, i2, o)` — the notificator argument is dropped,
so the notificator state is untouched. -/
def Logic3.lift {T : Type} (logic : Logic3 T) : Logic T :=
  fun h =>
    let r := logic h.input1 h.input2 h.output
    { input1 := r.1, input2 := r.2.1, output := r.2.2, notificator := h.notificator }

/-- The `Operator` struct of src/dataflow/operators/binary.rs: a name, the
handle, the logic closure, and the optional initial notifications plus peers. -/
structure Operator (T : Type) : Type where
  name : String
  handle : Handle T
  logic : Logic T
  notify : Option (List T × Nat)

namespace Operator

variable {T : Type}

/-- `Operator::new` of src/dataflow/operators/binary.rs: wraps the two
receivers, builds the output as a buffer around a push counter around the Tee,
and takes a default (empty) notificator. -/
def new (receiver1 receiver2 : PullCounter T) (targets : Tee T) (name : String)
    (notify : Option (List T × Nat)) (logic : Logic T) : Operator T :=
  { name := name
    handle :=
      { input1 := receiver1
        input2 := receiver2
        output := ObserverBuffer.new (PushCounter.new targets)
        notificator := default }
    logic := logic
    notify := notify }

/-- `Operate::inputs` of src/dataflow/operators/binary.rs. -/
def inputs (_op : Operator T) : Nat := 2

/-- `Operate::outputs` of src/dataflow/operators/binary.rs. -/
def outputs (_op : Operator T) : Nat := 1

/-- `Operate::get_internal_summary` of src/dataflow/operators/binary.rs:
if initial notifications were supplied, each timestamp of the drained initial
list is registered with the notificator once per peer, and the notificator's
progress is drained into `internal[0]`; the summaries are a singleton default
antichain per input-output pair. `S` stands for `T::Summary`. -/
def get_internal_summary [DecidableEq T] (S : Type) [Inhabited S] (op : Operator T) :
    Operator T × (List (List (Antichain S)) × List (CountMap T)) :=
  let internal0 : CountMap T := CountMap.new
  match op.notify with
  | some (initial, peers) =>
      let n := initial.foldl
        (fun n1 time => (List.range peers).foldl (fun n2 _ => n2.notify_at time) n1)
        op.handle.notificator
      let r := n.pull_progress internal0
      ({ op with
          handle := { op.handle with notificator := r.1 }
          notify := some ([], peers) },
       ([[Antichain.from_elem default], [Antichain.from_elem default]], [r.2]))
  | none =>
      (op, ([[Antichain.from_elem default], [Antichain.from_elem default]], [internal0]))

/-- `Operate::set_external_summary` of src/dataflow/operators/binary.rs:
ignores the summaries and forwards the frontier CountMaps (one per input) to
the notificator's `update_frontier_from_cm`. -/
def set_external_summary [DecidableEq T] {S : Type} (op : Operator T)
    (_summaries : List (List (Antichain S))) (frontier : CountMap T × CountMap T) :
    Operator T :=
  { op with
    handle :=
      { op.handle with
        notificator := op.handle.notificator.update_frontier_from_cm [frontier.1, frontier.2] } }

/-- `Operate::push_external_progress` of src/dataflow/operators/binary.rs:
forwards the external CountMaps (one per input) to the notificator's
`update_frontier_from_cm`. -/
def push_external_progress [DecidableEq T] (op : Operator T)
    (external : CountMap T × CountMap T) : Operator T :=
  { op with
    handle :=
      { op.handle with
        notificator := op.handle.notificator.update_frontier_from_cm [external.1, external.2] } }

/-- `Operate::pull_internal_progress` of src/dataflow/operators/binary.rs:
runs the logic once on the handle, ceases the output, then drains input1 into
`consumed[0]`, input2 into `consumed[1]`, the output's push counter into
`produced[0]` and the notificator into `internal[0]`, returning false. -/
def pull_internal_progress [DecidableEq T] (op : Operator T)
    (consumed : CountMap T × CountMap T) (internal : CountMap T) (produced : CountMap T) :
    Operator T × ((CountMap T × CountMap T) × CountMap T × CountMap T) × Bool :=
  let h := op.logic op.handle
  let h2 := { h with output := h.output.cease }
  let r1 := h2.input1.pull_progress consumed.1
  let r2 := h2.input2.pull_progress consumed.2
  let r3 := h2.output.inner.pull_progress produced
  let r4 := h2.notificator.pull_progress internal
  ({ op with
      handle :=
        { input1 := r1.1
          input2 := r2.1
          output := { h2.output with inner0 := r3.1 }
          notificator := r4.1 } },
   ((r1.2, r2.2), r4.2, r3.2), false)

/-- `Operate::notify_me` of src/dataflow/operators/binary.rs. -/
def notify_me (op : Operator T) : Bool := op.notify.isSome

end Operator

/-- `Source` of progress/nested/subgraph.rs as used by binary.rs: a (vertex
index, output port) pair. Modelled from the spec (the defining file is absent
from src/). -/
structure Source : Type where
  index : Nat
  port : Nat
deriving DecidableEq

/-- `Target` of progress/nested/subgraph.rs as used by binary.rs: a (vertex
index, input port) pair. Modelled from the spec (the defining file is absent
from src/). -/
structure Target : Type where
  index : Nat
  port : Nat
deriving DecidableEq

/-- Modelled from the spec: a `Stream` handle is a (vertex index, output port)
descriptor plus the registrar used to attach downstream consumers. -/
structure Stream (T : Type) : Type where
  source : Source
  registrar : TeeHelper T

/-- Modelled from the spec: `Stream::new(source, registrar, scope)`. -/
def Stream.new {T : Type} (source : Source) (registrar : TeeHelper T) : Stream T :=
  ⟨source, registrar⟩

/-- Modelled from the spec: the scope builder state behind `new_identifier()`,
`add_operator`, `peers()` and `connect_to` (the defining files are absent from
src/): a channel-identifier counter, the peer count, the dense operator arena,
and the recorded edges as (source, target, sender, channel id) tuples. -/
structure Scope (T : Type) : Type where
  nextId : Nat
  peersCount : Nat
  operators : List (Operator T)
  edges : List (Source × Target × Nat × Nat)

namespace Scope

variable {T : Type}

/-- Modelled from the spec: `new_identifier()` hands out a fresh channel
identifier. -/
def new_identifier (s : Scope T) : Nat × Scope T :=
  (s.nextId, { s with nextId := s.nextId + 1 })

/-- Modelled from the spec: `add_operator(Operate) -> vertex_index` appends the
operator to the dense arena and returns its index. -/
def add_operator (s : Scope T) (op : Operator T) : Nat × Scope T :=
  (s.operators.length, { s with operators := s.operators ++ [op] })

/-- Modelled from the spec: `peers()` returns the number of peer workers. -/
def peers (s : Scope T) : Nat := s.peersCount

end Scope

/-- Modelled from the spec: `Stream::connect_to(target, sender, channel_id)`
wires this stream's output port to the target input port over the given
channel, recording the edge with the scope. -/
def Stream.connect_to {T : Type} (self : Stream T) (target : Target) (sender : Nat)
    (channel_id : Nat) (scope : Scope T) : Scope T :=
  { scope with edges := scope.edges ++ [(self.source, target, sender, channel_id)] }

/-- Modelled from the spec: a `ParallelizationContract` exposes
`connect(scope, channel_id) -> (sender, receiver)`; sender and receiver are
channel endpoint handles. -/
def Pact (T : Type) : Type := Scope T → Nat → Nat × Nat

/-- `binary_stream` of src/dataflow/operators/binary.rs: allocates two channel
identifiers, connects both contracts, wraps receivers in PullCounters and the
output in a Tee, registers the operator (built with `notify = None` and a
wrapper dropping the notificator argument), wires both source streams to input
ports 0 and 1, and returns a stream on output port 0 of the new vertex. -/
def binary_stream {T : Type} (self : Stream T) (other : Stream T)
    (pact1 pact2 : Pact T) (name : String) (logic : Logic3 T) (scope : Scope T) :
    Stream T × Scope T :=
  let a1 := scope.new_identifier
  let channel_id1 := a1.1
  let a2 := a1.2.new_identifier
  let channel_id2 := a2.1
  let scope2 := a2.2
  let c1 := pact1 scope2 channel_id1
  let sender1 := c1.1
  let receiver1 := c1.2
  let c2 := pact2 scope2 channel_id2
  let sender2 := c2.1
  let receiver2 := c2.2
  let tn := Tee.new (T := T)
  let targets := tn.1
  let registrar := tn.2
  let operator := Operator.new (PullCounter.new receiver1) (PullCounter.new receiver2)
    targets name none (Logic3.lift logic)
  let a3 := scope2.add_operator operator
  let index := a3.1
  let scope3 := self.connect_to ⟨index, 0⟩ sender1 channel_id1 a3.2
  let scope4 := other.connect_to ⟨index, 1⟩ sender2 channel_id2 scope3
  (Stream.new ⟨index, 0⟩ registrar, scope4)

/-- `binary_notify` of src/dataflow/operators/binary.rs: identical wiring to
`binary_stream`, but the operator is built with
`notify = Some((initial timestamps, peers))` and the logic receives the
notificator. -/
def binary_notify {T : Type} (self : Stream T) (other : Stream T)
    (pact1 pact2 : Pact T) (name : String) (notify : List T) (logic : Logic T)
    (scope : Scope T) : Stream T × Scope T :=
  let a1 := scope.new_identifier
  let channel_id1 := a1.1
  let a2 := a1.2.new_identifier
  let channel_id2 := a2.1
  let scope2 := a2.2
  let c1 := pact1 scope2 channel_id1
  let sender1 := c1.1
  let receiver1 := c1.2
  let c2 := pact2 scope2 channel_id2
  let sender2 := c2.1
  let receiver2 := c2.2
  let tn := Tee.new (T := T)
  let targets := tn.1
  let registrar := tn.2
  let operator := Operator.new (PullCounter.new receiver1) (PullCounter.new receiver2)
    targets name (some (notify, scope2.peers)) logic
  let a3 := scope2.add_operator operator
  let index := a3.1
  let scope3 := self.connect_to ⟨index, 0⟩ sender1 channel_id1 a3.2
  let scope4 := other.connect_to ⟨index, 1⟩ sender2 channel_id2 scope3
  (Stream.new ⟨index, 0⟩ registrar, scope4)


namespace DistinctExample

/-- Modelled from the spec: the two positions a message can occupy in the
Scenario A cycle of examples/distinct.rs — about to enter the distinct path
(the stream1 side) or the pass-through path (the stream2 side). -/
inductive Loc : Type where
  | distinctIn : Loc
  | passIn : Loc
deriving DecidableEq

/-- Modelled from the spec: an in-flight message of Scenario A, carrying its
position, its timestamp and its payload value. -/
structure Msg : Type where
  loc : Loc
  time : Nat
  value : Nat
deriving DecidableEq

/-- Modelled from the spec: the observable state of the Scenario A graph after
both inputs are closed — the set of values the distinct operator has already
emitted, and the in-flight messages. -/
structure ExState : Type where
  seen : List Nat
  msgs : List Msg
deriving DecidableEq

/-- The feedback bound of examples/distinct.rs: both feedback edges are built
with `RootTimestamp::new(1000000)`. -/
def limit : Nat := 1000000

/-- Modelled from the spec: a feedback edge with summary `+1` forwards a
message with its timestamp advanced by one, dropping it past the bound. -/
def feedbackEmit (l : Loc) (t v : Nat) : List Msg :=
  if t + 1 ≤ limit then [⟨l, t + 1, v⟩] else []

/-- Modelled from the spec: one hop of a Scenario A message. On the distinct
side a value already emitted is dropped, a new value is recorded and forwarded
around the swapped feedback to the pass-through side; on the pass-through side
the message is forwarded around the other feedback to the distinct side. -/
def stepMsg (seen : List Nat) (m : Msg) : List Nat × List Msg :=
  match m.loc with
  | Loc.distinctIn =>
      if m.value ∈ seen then (seen, [])
      else (m.value :: seen, feedbackEmit Loc.passIn m.time m.value)
  | Loc.passIn => (seen, feedbackEmit Loc.distinctIn m.time m.value)

/-- Modelled from the spec: process every in-flight message one hop,
accumulating the distinct state left to right. -/
def stepAll (seen : List Nat) : List Msg → List Nat × List Msg
  | [] => (seen, [])
  | m :: rest =>
      let r := stepMsg seen m
      let r2 := stepAll r.1 rest
      (r2.1, r.2 ++ r2.2)

/-- Modelled from the spec: one call to `Root::step()` after the inputs are
closed drives every vertex once, moving each in-flight message one hop. -/
def exampleStep (s : ExState) : ExState :=
  ⟨(stepAll s.seen s.msgs).1, (stepAll s.seen s.msgs).2⟩

/-- Modelled from the spec: `Root::step()` returns true iff some vertex still
has outstanding work; with the inputs closed this is the presence of in-flight
messages. -/
def hasWork (s : ExState) : Bool := !s.msgs.isEmpty

/-- Modelled from the spec: the Scenario A state right after the scripted part
of examples/distinct.rs — input1 sent [1] at time 0 into the distinct side,
input2 sent [2] at time 0 into the pass-through side, and both inputs are
closed at time 1,000,000. -/
def initialState : ExState :=
  ⟨[], [⟨Loc.distinctIn, 0, 1⟩, ⟨Loc.passIn, 0, 2⟩]⟩

/-- Iterating the round step n times. -/
def stepN : Nat → ExState → ExState
  | 0, s => s
  | n + 1, s => stepN n (exampleStep s)

end DistinctExample

namespace CountMap

variable {T : Type}

theorem count_nil [DecidableEq T] (t : T) : count ([] : CountMap T) t = 0 := rfl

theorem count_new [DecidableEq T] (t : T) : count (new : CountMap T) t = 0 := rfl

theorem count_cons [DecidableEq T] (t1 t : T) (d1 : Int) (rest : CountMap T) :
    count ((t1, d1) :: rest) t = (if t1 = t then d1 else 0) + count rest t := by
  simp only [count, List.map_cons, List.sum_cons]

theorem count_update [DecidableEq T] (m : CountMap T) (t t0 : T) (d : Int) :
    count (update t d m) t0 = count m t0 + (if t0 = t then d else 0) := by
  induction m with
  | nil =>
      by_cases h : d = 0
      · subst h; simp [update, count]
      · by_cases ht : t0 = t
        · subst ht; simp [update, count, h]
        · have ht2 : ¬ t = t0 := fun h1 => ht h1.symm
          simp [update, count, h, ht, ht2]
  | cons p rest ih =>
      obtain ⟨t1, d1⟩ := p
      by_cases h1 : t = t1
      · subst h1
        by_cases hz : d1 + d = 0
        · by_cases ht : t0 = t
          · subst ht
            simp [update, hz, count]
            omega
          · have ht2 : ¬ t = t0 := fun h2 => ht h2.symm
            simp [update, hz, count, ht, ht2]
        · by_cases ht : t0 = t
          · subst ht
            simp [update, hz, count]
            ring
          · have ht2 : ¬ t = t0 := fun h2 => ht h2.symm
            simp [update, hz, count, ht, ht2]
      · simp only [update, if_neg h1, count, List.map_cons, List.sum_cons]
        simp only [count] at ih
        rw [ih]
        ring

theorem count_drainInto [DecidableEq T] (src acc : CountMap T) (t : T) :
    count (drainInto src acc) t = count acc t + count src t := by
  induction src generalizing acc with
  | nil =>
      show count acc t = count acc t + count [] t
      rw [count_nil, add_zero]
  | cons p rest ih =>
      obtain ⟨t1, d1⟩ := p
      simp only [drainInto, List.foldl_cons] at ih ⊢
      rw [ih, count_update, count_cons]
      by_cases h : t = t1
      · rw [if_pos h, if_pos h.symm]
        ring
      · rw [if_neg h, if_neg (fun h1 => h h1.symm)]
        ring

end CountMap

namespace Notificator

variable {T : Type}

theorem count_pending_notify_fold [DecidableEq T] {A : Type} (l : List A)
    (n : Notificator T) (time t : T) :
    CountMap.count ((l.foldl (fun n2 _ => n2.notify_at time) n).pending) t =
      CountMap.count n.pending t + (if t = time then (l.length : Int) else 0) := by
  induction l generalizing n with
  | nil => simp
  | cons a rest ih =>
      simp only [List.foldl_cons, List.length_cons]
      rw [ih]
      simp only [notify_at, CountMap.count_update]
      by_cases h : t = time
      · simp only [if_pos h]
        push_cast
        ring
      · simp only [if_neg h, add_zero]

theorem count_changes_notify_fold [DecidableEq T] {A : Type} (l : List A)
    (n : Notificator T) (time t : T) :
    CountMap.count ((l.foldl (fun n2 _ => n2.notify_at time) n).changes) t =
      CountMap.count n.changes t + (if t = time then (l.length : Int) else 0) := by
  induction l generalizing n with
  | nil => simp
  | cons a rest ih =>
      simp only [List.foldl_cons, List.length_cons]
      rw [ih]
      simp only [notify_at, CountMap.count_update]
      by_cases h : t = time
      · simp only [if_pos h]
        push_cast
        ring
      · simp only [if_neg h, add_zero]

theorem count_pending_notify_initial [DecidableEq T] (initial : List T) (peers : Nat)
    (n : Notificator T) (t : T) :
    CountMap.count
        ((initial.foldl
          (fun n1 time => (List.range peers).foldl (fun n2 _ => n2.notify_at time) n1)
          n).pending) t =
      CountMap.count n.pending t + (peers : Int) * (initial.count t : Int) := by
  induction initial generalizing n with
  | nil => simp
  | cons time rest ih =>
      simp only [List.foldl_cons]
      rw [ih, count_pending_notify_fold, List.length_range]
      by_cases h : t = time
      · have h2 : time = t := h.symm
        simp only [if_pos h, List.count_cons, h2]
        simp
        ring
      · have h2 : ¬ time = t := fun h1 => h h1.symm
        simp only [if_neg h, List.count_cons, add_zero]
        simp [h2]

theorem count_changes_notify_initial [DecidableEq T] (initial : List T) (peers : Nat)
    (n : Notificator T) (t : T) :
    CountMap.count
        ((initial.foldl
          (fun n1 time => (List.range peers).foldl (fun n2 _ => n2.notify_at time) n1)
          n).changes) t =
      CountMap.count n.changes t + (peers : Int) * (initial.count t : Int) := by
  induction initial generalizing n with
  | nil => simp
  | cons time rest ih =>
      simp only [List.foldl_cons]
      rw [ih, count_changes_notify_fold, List.length_range]
      by_cases h : t = time
      · have h2 : time = t := h.symm
        simp only [if_pos h, List.count_cons, h2]
        simp
        ring
      · have h2 : ¬ time = t := fun h1 => h h1.symm
        simp only [if_neg h, List.count_cons, add_zero]
        simp [h2]

end Notificator

/-- C1: for every generic binary Operator and every call to
`pull_internal_progress(consumed, internal, produced)`, the user logic runs
exactly once (the post state is exactly one application of the logic to the
handle); afterwards the deltas accumulated by the first input's PullCounter are
drained into consumed[0], those of the second input's PullCounter into
consumed[1], those of the output's PushCounter into produced[0], and those of
the notificator into internal[0], each meter being cleared. -/
theorem claim_C1_pull_internal_progress_drains {T : Type} [DecidableEq T]
    (op : Operator T) (consumed : CountMap T × CountMap T)
    (internal produced : CountMap T) :
    (∀ t, CountMap.count ((op.pull_internal_progress consumed internal produced).2.1.1.1) t =
        CountMap.count consumed.1 t +
          CountMap.count (op.logic op.handle).input1.consumed t) ∧
    (∀ t, CountMap.count ((op.pull_internal_progress consumed internal produced).2.1.1.2) t =
        CountMap.count consumed.2 t +
          CountMap.count (op.logic op.handle).input2.consumed t) ∧
    (∀ t, CountMap.count ((op.pull_internal_progress consumed internal produced).2.1.2.2) t =
        CountMap.count produced t +
          CountMap.count ((op.logic op.handle).output.cease).inner.produced t) ∧
    (∀ t, CountMap.count ((op.pull_internal_progress consumed internal produced).2.1.2.1) t =
        CountMap.count internal t +
          CountMap.count (op.logic op.handle).notificator.changes t) ∧
    (op.pull_internal_progress consumed internal produced).1.handle.input1 =
      { (op.logic op.handle).input1 with consumed := CountMap.new } ∧
    (op.pull_internal_progress consumed internal produced).1.handle.input2 =
      { (op.logic op.handle).input2 with consumed := CountMap.new } ∧
    (op.pull_internal_progress consumed internal produced).1.handle.output =
      { (op.logic op.handle).output.cease with
          inner0 := { ((op.logic op.handle).output.cease).inner with
                        produced := CountMap.new } } ∧
    (op.pull_internal_progress consumed internal produced).1.handle.notificator =
      { (op.logic op.handle).notificator with changes := CountMap.new } := by
  refine ⟨fun t => ?_, fun t => ?_, fun t => ?_, fun t => ?_, rfl, rfl, rfl, rfl⟩ <;>
    simp [Operator.pull_internal_progress, PullCounter.pull_progress,
      PushCounter.pull_progress, Notificator.pull_progress, ObserverBuffer.inner,
      ObserverBuffer.cease, CountMap.count_drainInto]

/-- C8: for every generic binary Operator, `pull_internal_progress` reports all
work through the CountMaps and therefore always returns false (no unannounced
pending work). -/
theorem claim_C8_pull_internal_progress_returns_false {T : Type} [DecidableEq T]
    (op : Operator T) (consumed : CountMap T × CountMap T)
    (internal produced : CountMap T) :
    (op.pull_internal_progress consumed internal produced).2.2 = false := rfl

/-- C6: every generic binary Operator has fixed arity (2 inputs, 1 output) and
`get_internal_summary` returns one summary antichain per input-output pair — a
2-by-1 structure of singleton antichains holding the default summary. -/
theorem claim_C6_fixed_arity_and_default_summaries {T S : Type} [DecidableEq T]
    [Inhabited S] (op : Operator T) :
    op.inputs = 2 ∧ op.outputs = 1 ∧
    (op.get_internal_summary S).2.1 =
      [[Antichain.from_elem (default : S)], [Antichain.from_elem (default : S)]] := by
  refine ⟨rfl, rfl, ?_⟩
  cases h : op.notify with
  | none => simp [Operator.get_internal_summary, h]
  | some p =>
      obtain ⟨initial, peers⟩ := p
      simp [Operator.get_internal_summary, h]

/-- C2: a generic binary Operator constructed with
`notify = Some((initial, peers))` registers, in `get_internal_summary`, each
timestamp of the initial list with the notificator exactly `peers` times (the
pending count of a timestamp becomes peers times its number of occurrences in
the initial list) and reports exactly those counts in the returned initial
internal CountMap; with `notify = None` the returned internal CountMap is
empty. -/
theorem claim_C2_initial_notifications_replicated_per_peer {T : Type} [DecidableEq T]
    (S : Type) [Inhabited S] (r1 r2 : PullCounter T) (targets : Tee T)
    (name : String) (initial : List T) (peers : Nat) (logic : Logic T) :
    (∀ t, CountMap.count
        ((((Operator.new r1 r2 targets name (some (initial, peers)) logic
          ).get_internal_summary S).2.2).getD 0 CountMap.new) t =
      (peers : Int) * (initial.count t : Int)) ∧
    (∀ t, CountMap.count
        (((Operator.new r1 r2 targets name (some (initial, peers)) logic
          ).get_internal_summary S).1.handle.notificator.pending) t =
      (peers : Int) * (initial.count t : Int)) ∧
    (((Operator.new r1 r2 targets name none logic).get_internal_summary S).2.2 =
      [CountMap.new]) := by
  refine ⟨fun t => ?_, fun t => ?_, ?_⟩
  · simp only [Operator.new, Operator.get_internal_summary, Notificator.pull_progress,
      List.getD_cons_zero]
    rw [CountMap.count_drainInto, Notificator.count_changes_notify_initial]
    simp [CountMap.count_new, default]
  · simp only [Operator.new, Operator.get_internal_summary, Notificator.pull_progress]
    rw [Notificator.count_pending_notify_initial]
    simp [CountMap.count_new, default]
  · simp [Operator.new, Operator.get_internal_summary]

/-- C3: for every generic binary Operator, `set_external_summary` and
`push_external_progress` agree (the summaries argument is ignored) and both
apply every (timestamp, delta) pair of the two supplied per-input CountMaps to
the notificator's stored input frontier. -/
theorem claim_C3_frontier_updates_apply_all_deltas {T S : Type} [DecidableEq T]
    (op : Operator T) (summaries : List (List (Antichain S)))
    (frontier : CountMap T × CountMap T) :
    op.set_external_summary summaries frontier = op.push_external_progress frontier ∧
    (∀ t, CountMap.count
        ((op.push_external_progress frontier).handle.notificator.frontier) t =
      CountMap.count op.handle.notificator.frontier t +
        CountMap.count frontier.1 t + CountMap.count frontier.2 t) := by
  refine ⟨rfl, fun t => ?_⟩
  show CountMap.count
      (CountMap.drainInto frontier.2 (CountMap.drainInto frontier.1
        op.handle.notificator.frontier)) t = _
  rw [CountMap.count_drainInto, CountMap.count_drainInto]

/-- C10: `set_external_summary` and `push_external_progress` modify only the
notificator's frontier: the input PullCounters, the output buffer and its
PushCounter, the name, the notify configuration, and the notificator's pending
and changes maps are all unchanged, so no messages are consumed or produced. -/
theorem claim_C10_external_progress_frame {T S : Type} [DecidableEq T]
    (op : Operator T) (summaries : List (List (Antichain S)))
    (frontier external : CountMap T × CountMap T) :
    (op.set_external_summary summaries frontier).handle.input1 = op.handle.input1 ∧
    (op.set_external_summary summaries frontier).handle.input2 = op.handle.input2 ∧
    (op.set_external_summary summaries frontier).handle.output = op.handle.output ∧
    (op.set_external_summary summaries frontier).name = op.name ∧
    (op.set_external_summary summaries frontier).notify = op.notify ∧
    (op.set_external_summary summaries frontier).handle.notificator.pending =
      op.handle.notificator.pending ∧
    (op.set_external_summary summaries frontier).handle.notificator.changes =
      op.handle.notificator.changes ∧
    (op.push_external_progress external).handle.input1 = op.handle.input1 ∧
    (op.push_external_progress external).handle.input2 = op.handle.input2 ∧
    (op.push_external_progress external).handle.output = op.handle.output ∧
    (op.push_external_progress external).name = op.name ∧
    (op.push_external_progress external).notify = op.notify ∧
    (op.push_external_progress external).handle.notificator.pending =
      op.handle.notificator.pending ∧
    (op.push_external_progress external).handle.notificator.changes =
      op.handle.notificator.changes :=
  ⟨rfl, rfl, rfl, rfl, rfl, rfl, rfl, rfl, rfl, rfl, rfl, rfl, rfl, rfl⟩

/-- C9: `notify_me()` returns true exactly when the operator carries a notify
configuration; the operator registered by `binary_stream` reports false while
owning a default notificator, and the one registered by `binary_notify`
reports true. -/
theorem claim_C9_notify_me_tracks_construction {T : Type} :
    (∀ op : Operator T, op.notify_me = op.notify.isSome) ∧
    (∀ (self other : Stream T) (pact1 pact2 : Pact T) (name : String)
        (logic : Logic3 T) (scope : Scope T),
      ∃ op1 : Operator T,
        (binary_stream self other pact1 pact2 name logic scope).2.operators =
          scope.operators ++ [op1] ∧
        op1.notify_me = false ∧ op1.handle.notificator = default) ∧
    (∀ (self other : Stream T) (pact1 pact2 : Pact T) (name : String)
        (initial : List T) (logic : Logic T) (scope : Scope T),
      ∃ op2 : Operator T,
        (binary_notify self other pact1 pact2 name initial logic scope).2.operators =
          scope.operators ++ [op2] ∧
        op2.notify_me = true) :=
  ⟨fun _ => rfl,
   fun _ _ _ _ _ _ _ => ⟨_, rfl, rfl, rfl⟩,
   fun _ _ _ _ _ _ _ _ => ⟨_, rfl, rfl⟩⟩

/-- C7: in the Scenario A model of examples/distinct.rs — values [1] and [2]
injected at time 0 on the two sides of the cyclic graph with +1 feedback
summaries bounded at 1,000,000 and both inputs closed — repeated stepping
reaches a state with no in-flight work after finitely many rounds (step
returns false), and a quiescent state is absorbing. -/
theorem claim_C7_distinct_scenario_terminates :
    (∃ n : Nat, DistinctExample.hasWork
        (DistinctExample.stepN n DistinctExample.initialState) = false) ∧
    (∀ seen : List Nat, DistinctExample.exampleStep ⟨seen, []⟩ = ⟨seen, []⟩) :=
  ⟨⟨4, rfl⟩, fun _ => rfl⟩

/-- C4: both `binary_stream` and `binary_notify` allocate two fresh channel
identifiers, call each contract's connect with its own identifier, wrap the
receivers in PullCounters and the output in a Tee plus PushCounter plus
buffer, register the operator with the scope to obtain a vertex index, wire
the self stream to input port 0 and the other stream to input port 1 over the
allocated channel identifiers, and return a Stream on output port 0 of the new
vertex. -/
theorem claim_C4_construction_wiring {T : Type} (self other : Stream T)
    (pact1 pact2 : Pact T) (name : String) (logic3 : Logic3 T)
    (initial : List T) (logic4 : Logic T) (scope : Scope T) :
    let id1 := scope.nextId
    let id2 := scope.nextId + 1
    let scope2 : Scope T := { scope with nextId := scope.nextId + 2 }
    let index := scope.operators.length
    let rs := binary_stream self other pact1 pact2 name logic3 scope
    let op1 := Operator.new (PullCounter.new (pact1 scope2 id1).2)
      (PullCounter.new (pact2 scope2 id2).2) (Tee.new).1 name none (Logic3.lift logic3)
    let rn := binary_notify self other pact1 pact2 name initial logic4 scope
    let op2 := Operator.new (PullCounter.new (pact1 scope2 id1).2)
      (PullCounter.new (pact2 scope2 id2).2) (Tee.new).1 name
      (some (initial, scope.peersCount)) logic4
    rs.2.nextId = scope.nextId + 2 ∧
    rs.2.operators = scope.operators ++ [op1] ∧
    op1.handle.output = ObserverBuffer.new (PushCounter.new (Tee.new).1) ∧
    rs.2.edges = scope.edges ++
      [(self.source, ⟨index, 0⟩, (pact1 scope2 id1).1, id1),
       (other.source, ⟨index, 1⟩, (pact2 scope2 id2).1, id2)] ∧
    rs.1 = Stream.new ⟨index, 0⟩ (Tee.new).2 ∧
    rn.2.nextId = scope.nextId + 2 ∧
    rn.2.operators = scope.operators ++ [op2] ∧
    op2.handle.output = ObserverBuffer.new (PushCounter.new (Tee.new).1) ∧
    rn.2.edges = scope.edges ++
      [(self.source, ⟨index, 0⟩, (pact1 scope2 id1).1, id1),
       (other.source, ⟨index, 1⟩, (pact2 scope2 id2).1, id2)] ∧
    rn.1 = Stream.new ⟨index, 0⟩ (Tee.new).2 := by
  refine ⟨rfl, rfl, rfl, ?_, rfl, rfl, rfl, rfl, ?_, rfl⟩
  · show (scope.edges ++
        [(self.source, ⟨scope.operators.length, 0⟩,
          (pact1 { scope with nextId := scope.nextId + 2 } scope.nextId).1, scope.nextId)]) ++
        [(other.source, ⟨scope.operators.length, 1⟩,
          (pact2 { scope with nextId := scope.nextId + 2 } (scope.nextId + 1)).1,
          scope.nextId + 1)] = _
    simp
  · show (scope.edges ++
        [(self.source, ⟨scope.operators.length, 0⟩,
          (pact1 { scope with nextId := scope.nextId + 2 } scope.nextId).1, scope.nextId)]) ++
        [(other.source, ⟨scope.operators.length, 1⟩,
          (pact2 { scope with nextId := scope.nextId + 2 } (scope.nextId + 1)).1,
          scope.nextId + 1)] = _
    simp

/-- C5: `binary_stream` and `binary_notify` perform identical wiring and
bookkeeping — same returned stream, same fresh identifiers, same edges, same
peer count — and the registered operators agree on name and handle, differing
only in the notify configuration (None versus Some(initial, peers)) and in the
logic (the stream variant wraps its closure to discard the notificator). -/
theorem claim_C5_stream_notify_same_wiring {T : Type} (self other : Stream T)
    (pact1 pact2 : Pact T) (name : String) (logic3 : Logic3 T)
    (initial : List T) (logic4 : Logic T) (scope : Scope T) :
    let rs := binary_stream self other pact1 pact2 name logic3 scope
    let rn := binary_notify self other pact1 pact2 name initial logic4 scope
    rs.1 = rn.1 ∧
    rs.2.nextId = rn.2.nextId ∧
    rs.2.peersCount = rn.2.peersCount ∧
    rs.2.edges = rn.2.edges ∧
    (∃ op1 op2 : Operator T,
      rs.2.operators = scope.operators ++ [op1] ∧
      rn.2.operators = scope.operators ++ [op2] ∧
      op1.name = op2.name ∧
      op1.handle = op2.handle ∧
      op1.notify = none ∧
      op2.notify = some (initial, scope.peers) ∧
      op1.logic = Logic3.lift logic3 ∧
      op2.logic = logic4) :=
  ⟨rfl, rfl, rfl, rfl, ⟨_, _, rfl, rfl, rfl, rfl, rfl, rfl, rfl, rfl⟩⟩
